import Mathlib

/-! Verification development for `tools/evaluate_queries.cpp` (PISA driver, counters build).

The driver `evaluate_queries` selects one query function by algorithm name,
pre-registers one statistics record per query, runs the query function over
the batch with `tbb::parallel_for`, and prints one counter line per query.

Embedding conventions.

* The index, the upper-bound data, the scorer, the cursor factories, the
  accumulators and the algorithm classes live in headers that are not part of
  the translated file; they are the fields of `Collaborators`.
* `std::function` that may be empty is `Option query_fun_t`; invoking the
  empty one throws `std::bad_function_call`.
* `tbb::parallel_for` is run under an explicit `schedule`: the order in which
  the iterations are executed, each iteration taken as one atomic step.
* The global `query_stat_logging` is passed explicitly.
* Scores are `float` in the source.  The driver only carries scores, it never
  computes with them, so they are represented by naturals.
-/

namespace pisa

/-! ## Data model -/

abbrev DocId := Nat

abbrev Score := Nat

/-- The `topk_queue::entry_type` pair: score first, document id second. -/
abbrev entry_type := Score × DocId

/-- The part of `pisa::Query` the driver reads: `id()` and `terms()`. -/
structure Query where
  id : Option String
  terms : List Nat
deriving DecidableEq, Repr

/-- Modelled from the spec: the record type `block_max_score_query_stat_logging`
(declared in `util/measure_pars.hpp`, absent here).  The fields are the ones the
output line of `evaluate_queries` reads; the spec calls them term count,
loop-iteration count, essential/non-essential counts and per-phase counters. -/
structure block_max_score_query_stat_logging where
  qid : String
  term_cnt : Nat
  while_cnt : Nat
  non_ess_val : Nat
  oc_size : Nat
  f1_cnt_total : Nat
  f2_cnt_total : Nat
  f3_cnt_total : Nat
  p1_cnt_total : Nat
  p2_cnt_total : Nat
  p3_cnt_total : Nat
  p4_cnt_total : Nat
  p5_cnt_total : Nat
  p6_cnt_total : Nat
  p7_cnt_total : Nat
  br1_cnt_total : Nat
  br2_cnt_total : Nat
deriving DecidableEq, Repr

/-- Modelled from the spec: the three-argument constructor used by the
pre-registration loop, `(tqid, tq.terms().size(), 0)`: query id, term count and
a loop counter; every other counter starts at zero. -/
def block_max_score_query_stat_logging.make (tqid : String) (term_cnt while_cnt : Nat) :
    block_max_score_query_stat_logging :=
  { qid := tqid, term_cnt := term_cnt, while_cnt := while_cnt, non_ess_val := 0, oc_size := 0,
    f1_cnt_total := 0, f2_cnt_total := 0, f3_cnt_total := 0,
    p1_cnt_total := 0, p2_cnt_total := 0, p3_cnt_total := 0, p4_cnt_total := 0,
    p5_cnt_total := 0, p6_cnt_total := 0, p7_cnt_total := 0,
    br1_cnt_total := 0, br2_cnt_total := 0 }

/-- Modelled from the spec: the default-constructed record, which
`query_stat_logging[tqid]` yields for a key that is not in the map. -/
def block_max_score_query_stat_logging.default_record : block_max_score_query_stat_logging :=
  block_max_score_query_stat_logging.make "" 0 0

/-- Modelled from the spec: the global statistics map keyed by query id
(`query_stat_logging`, declared in `util/measure_pars.hpp`), as an association
list with at most one pair per key. -/
abbrev stat_map := List (String × block_max_score_query_stat_logging)

/-- The assignment `m[key] = v`: overwrite the entry of `key`, or add one. -/
def stat_map.assign : stat_map → String → block_max_score_query_stat_logging → stat_map
  | [], key, v => [(key, v)]
  | (k', v') :: rest, key, v =>
    if k' = key then (key, v) :: rest else (k', v') :: stat_map.assign rest key v

/-- The entry stored under `key`, if there is one. -/
def stat_map.find : stat_map → String → Option block_max_score_query_stat_logging
  | [], _ => none
  | (k', v') :: rest, key => if k' = key then some v' else stat_map.find rest key

/-- The read `m[key]`: the stored record, or a default one. -/
def stat_map.read (m : stat_map) (key : String) : block_max_score_query_stat_logging :=
  (stat_map.find m key).getD block_max_score_query_stat_logging.default_record

/-! ## The top-k queue -/

/-- The operations a queue has received, kept as a ghost trace. -/
inductive queue_event where
  | created (k : Nat)
  | inserted (score : Score) (docid : DocId)
  | finalized
deriving DecidableEq, Repr

/-- Modelled from the spec: the `topk_queue` class (§4.2), declared in
`topk_queue.hpp`, absent here.  `history` is a ghost trace of the operations
the queue has received since its construction. -/
structure topk_queue where
  k : Nat
  entries : List entry_type
  history : List queue_event
deriving DecidableEq, Repr

/-- The constructor `topk_queue topk(k)`: an empty queue of capacity `k`. -/
def topk_queue.new (k : Nat) : topk_queue :=
  { k := k, entries := [], history := [queue_event.created k] }

/-- The Top-k Entry ordering of §3: score descending, ties by document id ascending. -/
def entry_before (a b : entry_type) : Prop :=
  b.1 < a.1 ∨ (a.1 = b.1 ∧ a.2 ≤ b.2)

instance : DecidableRel entry_before := fun a b => by
  unfold entry_before
  exact inferInstance

/-- The minimum score held by a list of entries (0 for the empty list). -/
def min_score : List entry_type → Score
  | [] => 0
  | [e] => e.1
  | e :: rest => min e.1 (min_score rest)

/-- Removes the first entry whose score is `s`. -/
def remove_score (s : Score) : List entry_type → List entry_type
  | [] => []
  | e :: rest => if e.1 = s then rest else e :: remove_score s rest

/-- The `insert(score, doc_id)` of §4.2: unconditional below capacity; at
capacity only a score above the current minimum enters, evicting the minimum. -/
def topk_queue.insert (q : topk_queue) (score : Score) (docid : DocId) : topk_queue :=
  let history := q.history ++ [queue_event.inserted score docid]
  if q.entries.length < q.k then
    { q with entries := (score, docid) :: q.entries, history := history }
  else if q.k ≠ 0 ∧ min_score q.entries < score then
    { q with entries := (score, docid) :: remove_score (min_score q.entries) q.entries,
             history := history }
  else { q with history := history }

/-- Keeps, for each document id, the first entry that carries it. -/
def dedup_docids : List entry_type → List entry_type
  | [] => []
  | e :: rest => e :: (dedup_docids rest).filter (fun x => x.2 ≠ e.2)

/-- The `finalize()` of §4.2: sort by the Top-k Entry ordering, then drop the
repeated document ids (the first one kept has the highest score). -/
def topk_queue.finalize (q : topk_queue) : topk_queue :=
  { q with entries := dedup_docids (q.entries.insertionSort entry_before),
           history := q.history ++ [queue_event.finalized] }

/-- The accessor `topk()`: the entries held. -/
def topk_queue.topk (q : topk_queue) : List entry_type := q.entries

/-! ## External collaborators -/

/-- The loaded index, upper-bound data and scorer, the cursor factories, the
accumulators and the algorithm classes `evaluate_queries` uses.  An algorithm
object is built on a queue and applied to cursors and `index.num_docs()`; it
leaves the queue it worked on.  `block_max_maxscore_counters` is the effect of
a `block_max_maxscore_query` run on the global statistics map. -/
structure Collaborators where
  ScoredCursor : Type
  MaxScoredCursor : Type
  BlockMaxScoredCursor : Type
  SimpleAccumulator : Type
  LazyAccumulator : Type
  num_docs : Nat
  make_scored_cursors : Query → Bool → List ScoredCursor
  make_max_scored_cursors : Query → Bool → List MaxScoredCursor
  make_block_max_scored_cursors : Query → Bool → List BlockMaxScoredCursor
  new_simple_accumulator : Nat → SimpleAccumulator
  new_lazy_accumulator : Nat → LazyAccumulator
  wand_query : topk_queue → List MaxScoredCursor → Nat → topk_queue
  block_max_wand_query : topk_queue → List BlockMaxScoredCursor → Nat → topk_queue
  block_max_maxscore_query : topk_queue → String → List BlockMaxScoredCursor → Nat → topk_queue
  block_max_maxscore_counters : String → List BlockMaxScoredCursor → Nat → stat_map → stat_map
  block_max_ranked_and_query : topk_queue → List BlockMaxScoredCursor → Nat → topk_queue
  ranked_and_query : topk_queue → List ScoredCursor → Nat → topk_queue
  ranked_or_query : topk_queue → List ScoredCursor → Nat → topk_queue
  maxscore_query : topk_queue → List MaxScoredCursor → Nat → topk_queue
  ranked_or_taat_simple :
    topk_queue → List ScoredCursor → Nat → SimpleAccumulator → topk_queue × SimpleAccumulator
  ranked_or_taat_lazy :
    topk_queue → List ScoredCursor → Nat → LazyAccumulator → topk_queue × LazyAccumulator
  mmap_source : String → List String

/-! ## The query function -/

/-- What one run of a query function body leaves: the returned vector, the
captured state and the global statistics map afterwards, and (ghost) the local
queue `topk` as it is when the body returns. -/
structure call_result (State : Type) where
  value : List entry_type
  state : State
  query_stat_logging : stat_map
  topk : topk_queue

/-- The closure type behind `std::function<std::vector<entry_type>(Query)>`: the
captured mutable state (the accumulator of the term-at-a-time branches) and
the body, which also acts on the global statistics map. -/
structure query_fun_t where
  State : Type
  state : State
  call : State → Query → stat_map → call_result State

/-- One invocation `query_fun(query)`: the returned vector, the closure with
its captured state updated, and the statistics map afterwards. -/
def query_fun_t.invoke (f : query_fun_t) (query : Query) (m : stat_map) :
    List entry_type × query_fun_t × stat_map :=
  let r := f.call f.state query m
  (r.value, { f with state := r.state }, r.query_stat_logging)

variable (c : Collaborators) (k : Nat) (weighted : Bool)

/-- The lambda of the `wand` branch. -/
def wand_fun : query_fun_t :=
  { State := Unit, state := (), call := fun _ query m =>
      let topk := topk_queue.new k
      let topk := c.wand_query topk (c.make_max_scored_cursors query weighted) c.num_docs
      let topk := topk.finalize
      { value := topk.topk, state := (), query_stat_logging := m, topk := topk } }

/-- The lambda of the `block_max_wand` branch. -/
def block_max_wand_fun : query_fun_t :=
  { State := Unit, state := (), call := fun _ query m =>
      let topk := topk_queue.new k
      let topk :=
        c.block_max_wand_query topk (c.make_block_max_scored_cursors query weighted) c.num_docs
      let topk := topk.finalize
      { value := topk.topk, state := (), query_stat_logging := m, topk := topk } }

/-- The query id the `block_max_maxscore` lambda hands to its algorithm
object: `query.id().value_or(std::to_string(42))`. -/
def block_max_maxscore_tqid (query : Query) : String :=
  query.id.getD (toString (42 : Nat))

/-- The lambda of the `block_max_maxscore` branch. -/
def block_max_maxscore_fun : query_fun_t :=
  { State := Unit, state := (), call := fun _ query m =>
      let topk := topk_queue.new k
      let tqid := block_max_maxscore_tqid query
      let cursors := c.make_block_max_scored_cursors query weighted
      let m := c.block_max_maxscore_counters tqid cursors c.num_docs m
      let topk := c.block_max_maxscore_query topk tqid cursors c.num_docs
      let topk := topk.finalize
      { value := topk.topk, state := (), query_stat_logging := m, topk := topk } }

/-- The lambda of the `block_max_ranked_and` branch. -/
def block_max_ranked_and_fun : query_fun_t :=
  { State := Unit, state := (), call := fun _ query m =>
      let topk := topk_queue.new k
      let topk :=
        c.block_max_ranked_and_query topk (c.make_block_max_scored_cursors query weighted)
          c.num_docs
      let topk := topk.finalize
      { value := topk.topk, state := (), query_stat_logging := m, topk := topk } }

/-- The lambda of the `ranked_and` branch. -/
def ranked_and_fun : query_fun_t :=
  { State := Unit, state := (), call := fun _ query m =>
      let topk := topk_queue.new k
      let topk := c.ranked_and_query topk (c.make_scored_cursors query weighted) c.num_docs
      let topk := topk.finalize
      { value := topk.topk, state := (), query_stat_logging := m, topk := topk } }

/-- The lambda of the `ranked_or` branch. -/
def ranked_or_fun : query_fun_t :=
  { State := Unit, state := (), call := fun _ query m =>
      let topk := topk_queue.new k
      let topk := c.ranked_or_query topk (c.make_scored_cursors query weighted) c.num_docs
      let topk := topk.finalize
      { value := topk.topk, state := (), query_stat_logging := m, topk := topk } }

/-- The lambda of the `maxscore` branch. -/
def maxscore_fun : query_fun_t :=
  { State := Unit, state := (), call := fun _ query m =>
      let topk := topk_queue.new k
      let topk := c.maxscore_query topk (c.make_max_scored_cursors query weighted) c.num_docs
      let topk := topk.finalize
      { value := topk.topk, state := (), query_stat_logging := m, topk := topk } }

/-- The lambda of the `ranked_or_taat` branch; it captures
`SimpleAccumulator(index.num_docs())` by value and is `mutable`. -/
def ranked_or_taat_fun : query_fun_t :=
  { State := c.SimpleAccumulator, state := c.new_simple_accumulator c.num_docs,
    call := fun accumulator query m =>
      let topk := topk_queue.new k
      let r :=
        c.ranked_or_taat_simple topk (c.make_scored_cursors query weighted) c.num_docs accumulator
      let topk := r.1.finalize
      { value := topk.topk, state := r.2, query_stat_logging := m, topk := topk } }

/-- The lambda of the `ranked_or_taat_lazy` branch; it captures
`LazyAccumulator<4>(index.num_docs())` by value and is `mutable`. -/
def ranked_or_taat_lazy_fun : query_fun_t :=
  { State := c.LazyAccumulator, state := c.new_lazy_accumulator c.num_docs,
    call := fun accumulator query m =>
      let topk := topk_queue.new k
      let r :=
        c.ranked_or_taat_lazy topk (c.make_scored_cursors query weighted) c.num_docs accumulator
      let topk := r.1.finalize
      { value := topk.topk, state := r.2, query_stat_logging := m, topk := topk } }

/-- The message of the final `else` branch of the dispatch. -/
def unsupported_message (query_type : String) : String :=
  "Unsupported query type: " ++ query_type

/-- The dispatch on `query_type`: the query function selected (`none` is the
`std::function` left empty) and the messages given to `spdlog::error`. -/
def select_query_fun (query_type : String) : Option query_fun_t × List String :=
  if query_type = "wand" then (some (wand_fun c k weighted), [])
  else if query_type = "block_max_wand" then (some (block_max_wand_fun c k weighted), [])
  else if query_type = "block_max_maxscore" then (some (block_max_maxscore_fun c k weighted), [])
  else if query_type = "block_max_ranked_and" then
    (some (block_max_ranked_and_fun c k weighted), [])
  else if query_type = "ranked_and" then (some (ranked_and_fun c k weighted), [])
  else if query_type = "ranked_or" then (some (ranked_or_fun c k weighted), [])
  else if query_type = "maxscore" then (some (maxscore_fun c k weighted), [])
  else if query_type = "ranked_or_taat" then (some (ranked_or_taat_fun c k weighted), [])
  else if query_type = "ranked_or_taat_lazy" then (some (ranked_or_taat_lazy_fun c k weighted), [])
  else (none, [unsupported_message query_type])

/-! ## Pre-registration, parallel phase, output -/

/-- The identifier both driver loops derive for the query at position `idx`:
`id().value_or(std::to_string(idx))`. -/
def resolve_tqid (query : Query) (idx : Nat) : String :=
  query.id.getD (toString idx)

/-- The pre-registration loop from position `qitr` on, over the queries that
remain: `query_stat_logging[tqid] = query_log` for each. -/
def register_queries : List Query → Nat → stat_map → stat_map
  | [], _, m => m
  | tq :: rest, qitr, m =>
    let tqid := resolve_tqid tq qitr
    let query_log := block_max_score_query_stat_logging.make tqid tq.terms.length 0
    register_queries rest (qitr + 1) (stat_map.assign m tqid query_log)

/-- What can be thrown inside `evaluate_queries`. -/
inductive Exception where
  | bad_function_call
deriving DecidableEq, Repr

/-- The state the parallel phase acts on.  `calls` and `stored` are ghost
traces: the positions whose query function body ran, and the slots of
`raw_results` that were assigned, in execution order. -/
structure batch_state where
  query_fun : Option query_fun_t
  raw_results : List (List entry_type)
  query_stat_logging : stat_map
  calls : List Nat
  stored : List Nat

/-- The body of the `parallel_for`: `raw_results[query_idx] = query_fun(queries[query_idx])`. -/
def parallel_body (queries : List Query) (s : batch_state) (query_idx : Fin queries.length) :
    Except Exception batch_state :=
  match s.query_fun with
  | none => Except.error Exception.bad_function_call
  | some f =>
    let r := f.invoke (queries.get query_idx) s.query_stat_logging
    Except.ok
      { query_fun := some r.2.1,
        raw_results := s.raw_results.set query_idx.val r.1,
        query_stat_logging := r.2.2,
        calls := s.calls ++ [query_idx.val],
        stored := s.stored ++ [query_idx.val] }

/-- The `tbb::parallel_for` over the batch, iterations executed in the order
`schedule` gives; the first exception ends it.  Returns the state reached and
the exception, if any. -/
def parallel_for (queries : List Query) :
    List (Fin queries.length) → batch_state → batch_state × Option Exception
  | [], s => (s, none)
  | query_idx :: rest, s =>
    match parallel_body queries s query_idx with
    | Except.error e => (s, some e)
    | Except.ok s' => parallel_for queries rest s'

/-- One line of the output loop, the `fmt::format` call. -/
def format_line (tqid : String) (r : block_max_score_query_stat_logging) : String :=
  "qid:" ++ tqid ++ ",\ttermcnt:" ++ toString r.term_cnt ++ ",\twcnt:" ++ toString r.while_cnt
    ++ ",\tnon_es:" ++ toString r.non_ess_val ++ ",\toc_size" ++ toString r.oc_size
    ++ ",\tf1:" ++ toString r.f1_cnt_total ++ ",\tf2:" ++ toString r.f2_cnt_total
    ++ ",\tf3:" ++ toString r.f3_cnt_total ++ ",\tp1:" ++ toString r.p1_cnt_total
    ++ ",\tp2:" ++ toString r.p2_cnt_total ++ ",\tp3:" ++ toString r.p3_cnt_total
    ++ ",\tp4:" ++ toString r.p4_cnt_total ++ ",\tp5:" ++ toString r.p5_cnt_total
    ++ ",\tp6:" ++ toString r.p6_cnt_total ++ ",\tp7:" ++ toString r.p7_cnt_total
    ++ ",\tbr1:" ++ toString r.br1_cnt_total ++ ",\tbr2:" ++ toString r.br2_cnt_total ++ ",\n"

/-- The output loop from position `query_idx` on: one line per slot of
`raw_results`, for the query at the same position.  The slot's content is
copied into `results` and not used. -/
def output_loop (query_stat_logging : stat_map) :
    List Query → List (List entry_type) → Nat → List String
  | query :: queries, _results :: raw_results, query_idx =>
    let tqid := resolve_tqid query query_idx
    format_line tqid (stat_map.read query_stat_logging tqid)
      :: output_loop query_stat_logging queries raw_results (query_idx + 1)
  | _, _, _ => []

/-- What a call of `evaluate_queries` leaves behind. -/
structure Run where
  errors : List String
  query_stat_logging : stat_map
  raw_results : List (List entry_type)
  calls : List Nat
  stored : List Nat
  output : List String
  thrown : Option Exception
deriving DecidableEq, Repr

/-- The state on entry to the parallel phase: the query function selected, the
statistics map after pre-registration, and `raw_results(queries.size())`. -/
def batch_start (queries : List Query) (query_type : String) (query_stat_logging : stat_map) :
    batch_state :=
  { query_fun := (select_query_fun c k weighted query_type).1,
    raw_results := List.replicate queries.length [],
    query_stat_logging := register_queries queries 0 query_stat_logging,
    calls := [], stored := [] }

/-- The function `evaluate_queries`.  The collaborators `c` stand for the index,
the upper-bound data and the scorer the body builds from `index_filename`,
`wand_data_filename` and `scorer_params`.  `schedule` is the order the parallel
iterations run in; `query_stat_logging` is the global map on entry.  The
parameters `thresholds_filename`, `type`, `run_id` and `iteration` are not
read by the body; the document lexicon is loaded and not read.  Of the log
only the `spdlog::error` messages are kept; the timing messages are left out.
An exception leaves the function before the output loop. -/
def evaluate_queries (queries : List Query) (_thresholds_filename : Option String)
    (_type query_type : String) (documents_filename : String) (_run_id _iteration : String)
    (schedule : List (Fin queries.length)) (query_stat_logging : stat_map) : Run :=
  let errors := (select_query_fun c k weighted query_type).2
  let _docmap := c.mmap_source documents_filename
  let p := parallel_for queries schedule (batch_start c k weighted queries query_type
    query_stat_logging)
  match p.2 with
  | some e =>
    { errors := errors, query_stat_logging := p.1.query_stat_logging,
      raw_results := p.1.raw_results, calls := p.1.calls, stored := p.1.stored,
      output := [], thrown := some e }
  | none =>
    { errors := errors, query_stat_logging := p.1.query_stat_logging,
      raw_results := p.1.raw_results, calls := p.1.calls, stored := p.1.stored,
      output := output_loop p.1.query_stat_logging queries p.1.raw_results 0,
      thrown := none }

/-- The names the dispatch of `evaluate_queries` has a branch for. -/
def recognised_names : List String :=
  ["wand", "block_max_wand", "block_max_maxscore", "block_max_ranked_and", "ranked_and",
   "ranked_or", "maxscore", "ranked_or_taat", "ranked_or_taat_lazy"]

/-- The eight algorithm names the specification lists. -/
def spec_names : List String :=
  ["wand", "block_max_wand", "maxscore", "block_max_maxscore", "ranked_and", "ranked_or",
   "ranked_or_taat", "ranked_or_taat_lazy"]

/-- The names whose lambda captures no accumulator. -/
def accumulator_free_names : List String :=
  ["wand", "block_max_wand", "block_max_maxscore", "block_max_ranked_and", "ranked_and",
   "ranked_or", "maxscore"]

/-! ## A small concrete collaborator set -/

/-- The toy algorithm body: offer every cursor to the queue, as score and as
document id. -/
def toy_offer (t : topk_queue) (cursors : List Nat) : topk_queue :=
  cursors.foldl (fun q x => q.insert x x) t

/-- Collaborators over a toy index: a cursor is its term id, every algorithm
offers each cursor to the queue, an accumulator counts the runs it served, and
a `block_max_maxscore` run adds the number of cursors to the loop counter of
the record stored under the id it was given. -/
def toy : Collaborators :=
  { ScoredCursor := Nat, MaxScoredCursor := Nat, BlockMaxScoredCursor := Nat,
    SimpleAccumulator := Nat, LazyAccumulator := Nat,
    num_docs := 100,
    make_scored_cursors := fun q _ => q.terms,
    make_max_scored_cursors := fun q _ => q.terms,
    make_block_max_scored_cursors := fun q _ => q.terms,
    new_simple_accumulator := fun _ => 0,
    new_lazy_accumulator := fun _ => 0,
    wand_query := fun t cs _ => toy_offer t cs,
    block_max_wand_query := fun t cs _ => toy_offer t cs,
    block_max_maxscore_query := fun t _ cs _ => toy_offer t cs,
    block_max_maxscore_counters := fun tqid cs _ m =>
      stat_map.assign m tqid
        { stat_map.read m tqid with while_cnt := (stat_map.read m tqid).while_cnt + cs.length },
    block_max_ranked_and_query := fun t cs _ => toy_offer t cs,
    ranked_and_query := fun t cs _ => toy_offer t cs,
    ranked_or_query := fun t cs _ => toy_offer t cs,
    maxscore_query := fun t cs _ => toy_offer t cs,
    ranked_or_taat_simple := fun t cs _ acc => (toy_offer t cs, acc + 1),
    ranked_or_taat_lazy := fun t cs _ acc => (toy_offer t cs, acc + 1),
    mmap_source := fun _ => [] }


/-! ## Specification-side predicates -/

/-- The keys the pre-registration loop uses, from position `qitr` on. -/
def batch_keys : List Query → Nat → List String
  | [], _ => []
  | tq :: rest, qitr => resolve_tqid tq qitr :: batch_keys rest (qitr + 1)

/-- Queue `t'` is queue `t` after some `insert` calls and nothing else: same
capacity, and the history grew by `inserted` events only. -/
def only_inserts (t t' : topk_queue) : Prop :=
  t'.k = t.k ∧ ∃ evs : List queue_event,
    t'.history = t.history ++ evs ∧ ∀ e ∈ evs, ∃ s d, e = queue_event.inserted s d

/-- Every algorithm class acts on the queue it was built on through `insert`
only (it neither finalizes nor replaces the queue). -/
def Collaborators.insert_only (c : Collaborators) : Prop :=
  (∀ t cs n, only_inserts t (c.wand_query t cs n)) ∧
  (∀ t cs n, only_inserts t (c.block_max_wand_query t cs n)) ∧
  (∀ t tqid cs n, only_inserts t (c.block_max_maxscore_query t tqid cs n)) ∧
  (∀ t cs n, only_inserts t (c.block_max_ranked_and_query t cs n)) ∧
  (∀ t cs n, only_inserts t (c.ranked_and_query t cs n)) ∧
  (∀ t cs n, only_inserts t (c.ranked_or_query t cs n)) ∧
  (∀ t cs n, only_inserts t (c.maxscore_query t cs n)) ∧
  (∀ t cs n acc, only_inserts t (c.ranked_or_taat_simple t cs n acc).1) ∧
  (∀ t cs n acc, only_inserts t (c.ranked_or_taat_lazy t cs n acc).1)

/-- The schedules `tbb::parallel_for` can produce over `n` iterations: every
position of the range exactly once, in any order. -/
def valid_schedule (n : Nat) (schedule : List (Fin n)) : Prop :=
  schedule.Perm (List.finRange n)

instance (n : Nat) (schedule : List (Fin n)) : Decidable (valid_schedule n schedule) := by
  unfold valid_schedule
  exact inferInstance
/-! ## Lemmas on the dispatch -/

theorem select_of_not_recognised (query_type : String) (h : query_type ∉ recognised_names) :
    select_query_fun c k weighted query_type = (none, [unsupported_message query_type]) := by
  simp only [recognised_names, List.mem_cons, List.mem_singleton, not_or, List.mem_nil_iff,
    or_false] at h
  obtain ⟨h1, h2, h3, h4, h5, h6, h7, h8, h9⟩ := h
  simp [select_query_fun, h1, h2, h3, h4, h5, h6, h7, h8, h9]

theorem select_of_recognised (query_type : String) (h : query_type ∈ recognised_names) :
    ∃ f, select_query_fun c k weighted query_type = (some f, []) := by
  simp only [recognised_names, List.mem_cons, List.mem_singleton, List.mem_nil_iff,
    or_false] at h
  rcases h with h | h | h | h | h | h | h | h | h <;> subst h <;>
    simp [select_query_fun]

/-! ## Lemmas on the parallel phase -/

theorem parallel_for_empty_fun (queries : List Query) (schedule : List (Fin queries.length))
    (s : batch_state) (h : s.query_fun = none) :
    parallel_for queries schedule s
      = (s, if schedule = [] then none else some Exception.bad_function_call) := by
  cases schedule with
  | nil => simp [parallel_for]
  | cons i rest => simp [parallel_for, parallel_body, h]

/-- With a query function set, the parallel phase ends without an exception;
the closure keeps its body, every scheduled position is called and stored, and
`raw_results` keeps its size. -/
theorem parallel_for_set_fun (queries : List Query) (schedule : List (Fin queries.length)) :
    ∀ (s : batch_state) (f : query_fun_t), s.query_fun = some f →
      (parallel_for queries schedule s).2 = none ∧
      (∃ st, (parallel_for queries schedule s).1.query_fun = some { f with state := st }) ∧
      (parallel_for queries schedule s).1.raw_results.length = s.raw_results.length ∧
      (parallel_for queries schedule s).1.calls = s.calls ++ schedule.map Fin.val ∧
      (parallel_for queries schedule s).1.stored = s.stored ++ schedule.map Fin.val := by
  induction schedule with
  | nil =>
    intro s f h
    refine ⟨by simp [parallel_for], ⟨f.state, by simp [parallel_for, h]⟩, ?_, ?_, ?_⟩ <;>
      simp [parallel_for]
  | cons i rest ih =>
    intro s f h
    have hb : parallel_body queries s i = Except.ok
        { query_fun := some (f.invoke (queries.get i) s.query_stat_logging).2.1,
          raw_results := s.raw_results.set i.val (f.invoke (queries.get i) s.query_stat_logging).1,
          query_stat_logging := (f.invoke (queries.get i) s.query_stat_logging).2.2,
          calls := s.calls ++ [i.val],
          stored := s.stored ++ [i.val] } := by
      simp [parallel_body, h]
    obtain ⟨h1, ⟨st, h2⟩, h3, h4, h5⟩ := ih _ _ (rfl :
      (batch_state.mk (some (f.invoke (queries.get i) s.query_stat_logging).2.1)
        (s.raw_results.set i.val (f.invoke (queries.get i) s.query_stat_logging).1)
        (f.invoke (queries.get i) s.query_stat_logging).2.2
        (s.calls ++ [i.val]) (s.stored ++ [i.val])).query_fun = _)
    simp only [parallel_for, hb]
    refine ⟨h1, ⟨st, ?_⟩, ?_, ?_, ?_⟩
    · rw [h2]; rfl
    · rw [h3]; simp
    · rw [h4]; simp
    · rw [h5]; simp

theorem parallel_for_append (queries : List Query) (pre post : List (Fin queries.length)) :
    ∀ s : batch_state, (parallel_for queries pre s).2 = none →
      parallel_for queries (pre ++ post) s
        = parallel_for queries post (parallel_for queries pre s).1 := by
  induction pre with
  | nil => intro s _; simp [parallel_for]
  | cons i rest ih =>
    intro s h
    simp only [List.cons_append, parallel_for] at h ⊢
    cases hb : parallel_body queries s i with
    | error e => simp [hb] at h
    | ok s' =>
      simp only [hb] at h ⊢
      exact ih s' h

/-- A slot whose position is not scheduled keeps its content. -/
theorem parallel_for_slot_untouched (queries : List Query) (i : Nat)
    (schedule : List (Fin queries.length)) :
    ∀ s : batch_state, (∀ j ∈ schedule, j.val ≠ i) →
      (parallel_for queries schedule s).1.raw_results[i]? = s.raw_results[i]? := by
  induction schedule with
  | nil => intro s _; simp [parallel_for]
  | cons j rest ih =>
    intro s h
    simp only [parallel_for]
    cases hq : s.query_fun with
    | none => simp [parallel_body, hq]
    | some f =>
      simp only [parallel_body, hq]
      rw [ih _ (fun j' hj' => h j' (List.mem_cons_of_mem _ hj'))]
      have hji : j.val ≠ i := h j (List.mem_cons_self _ _)
      simp [List.getElem?_set, hji]

/-- The slot of a position scheduled once holds what its call returned. -/
theorem parallel_for_slot (queries : List Query) (i : Fin queries.length)
    (post : List (Fin queries.length)) (s : batch_state) (f : query_fun_t)
    (hf : s.query_fun = some f) (hlen : i.val < s.raw_results.length) (hpost : i ∉ post) :
    (parallel_for queries (i :: post) s).1.raw_results[i.val]?
      = some (f.invoke (queries.get i) s.query_stat_logging).1 := by
  simp only [parallel_for, parallel_body, hf]
  rw [parallel_for_slot_untouched queries i.val post _ (by
    intro j hj hji
    exact hpost (by rw [← Fin.ext hji]; exact hj))]
  simp [List.getElem?_set, hlen]

/-! ## Lemmas on the output loop -/

theorem output_loop_length (m : stat_map) :
    ∀ (queries : List Query) (raw_results : List (List entry_type)) (idx : Nat),
      raw_results.length = queries.length →
      (output_loop m queries raw_results idx).length = queries.length := by
  intro queries
  induction queries with
  | nil => intro raw idx _; cases raw <;> simp [output_loop]
  | cons q rest ih =>
    intro raw idx h
    cases raw with
    | nil => simp at h
    | cons r raw =>
      simp only [output_loop, List.length_cons]
      rw [ih raw (idx + 1) (by simpa using h)]

theorem output_loop_getElem (m : stat_map) :
    ∀ (queries : List Query) (raw_results : List (List entry_type)) (idx : Nat),
      raw_results.length = queries.length →
      ∀ (i : Nat) (h : i < queries.length),
        (output_loop m queries raw_results idx)[i]?
          = some (format_line (resolve_tqid (queries.get ⟨i, h⟩) (idx + i))
              (stat_map.read m (resolve_tqid (queries.get ⟨i, h⟩) (idx + i)))) := by
  intro queries
  induction queries with
  | nil => intro raw idx _ i h; simp at h
  | cons q rest ih =>
    intro raw idx hlen i h
    cases raw with
    | nil => simp at hlen
    | cons r raw =>
      cases i with
      | zero => simp [output_loop]
      | succ i =>
        simp only [output_loop, List.getElem?_cons_succ]
        rw [ih raw (idx + 1) (by simpa using hlen) i (by simpa using h)]
        simp [Nat.add_assoc, Nat.add_comm 1 i]

/-- The lines depend on the ids, the positions, the records read and the
number of slots, and on nothing else. -/
theorem output_loop_congr (m m' : stat_map) (hm : ∀ key, stat_map.read m key = stat_map.read m' key) :
    ∀ (queries queries' : List Query) (raw raw' : List (List entry_type)) (idx : Nat),
      queries.map Query.id = queries'.map Query.id → raw.length = raw'.length →
      output_loop m queries raw idx = output_loop m' queries' raw' idx := by
  intro queries
  induction queries with
  | nil =>
    intro queries' raw raw' idx hq _
    cases queries' with
    | nil => simp [output_loop]
    | cons _ _ => simp at hq
  | cons q rest ih =>
    intro queries' raw raw' idx hq hr
    cases queries' with
    | nil => simp at hq
    | cons q' rest' =>
      simp only [List.map_cons, List.cons.injEq] at hq
      cases raw with
      | nil =>
        cases raw' with
        | nil => simp [output_loop]
        | cons _ _ => simp at hr
      | cons r raw =>
        cases raw' with
        | nil => simp at hr
        | cons r' raw' =>
          simp only [output_loop, resolve_tqid, hq.1, hm]
          rw [ih rest' raw raw' (idx + 1) hq.2 (by simpa using hr)]

/-! ## Lemmas on the statistics map and the pre-registration loop -/

theorem find_assign (m : stat_map) (key key' : String) (v : block_max_score_query_stat_logging) :
    stat_map.find (stat_map.assign m key v) key'
      = if key = key' then some v else stat_map.find m key' := by
  induction m with
  | nil => simp [stat_map.assign, stat_map.find]
  | cons p rest ih =>
    obtain ⟨k', v'⟩ := p
    by_cases h : k' = key
    · subst h
      by_cases h2 : k' = key' <;> simp [stat_map.assign, stat_map.find, h2]
    · by_cases h2 : key = key'
      · subst h2
        simp [stat_map.assign, stat_map.find, h, ih]
      · have h2' : ¬ key' = key := fun e => h2 e.symm
        by_cases h3 : k' = key'
        · subst h3
          simp [stat_map.assign, stat_map.find, h, h2]
        · simp [stat_map.assign, stat_map.find, h, h2, h3, ih]

theorem keys_assign (m : stat_map) (key : String) (v : block_max_score_query_stat_logging) :
    (stat_map.assign m key v).map Prod.fst
      = if key ∈ m.map Prod.fst then m.map Prod.fst else m.map Prod.fst ++ [key] := by
  induction m with
  | nil => simp [stat_map.assign]
  | cons p rest ih =>
    obtain ⟨k', v'⟩ := p
    by_cases h : k' = key
    · subst h; simp [stat_map.assign]
    · have h' : ¬ key = k' := fun e => h e.symm
      by_cases h2 : key ∈ rest.map Prod.fst
      · simp only [stat_map.assign, h, if_false, List.map_cons, ih, h2, if_true, List.mem_cons,
          or_true]
      · simp only [stat_map.assign, h, if_false, List.map_cons, ih, h2, List.mem_cons, h',
          or_self, List.cons_append]

theorem nodup_keys_assign (m : stat_map) (key : String) (v : block_max_score_query_stat_logging)
    (h : (m.map Prod.fst).Nodup) : ((stat_map.assign m key v).map Prod.fst).Nodup := by
  rw [keys_assign]
  split
  · exact h
  · rename_i hk
    exact List.Nodup.append h (List.nodup_singleton _) (by
      intro a ha hb
      simp only [List.mem_singleton] at hb
      exact hk (hb ▸ ha))

theorem mem_keys_assign (m : stat_map) (key key' : String)
    (v : block_max_score_query_stat_logging) :
    key' ∈ (stat_map.assign m key v).map Prod.fst ↔ key' ∈ m.map Prod.fst ∨ key' = key := by
  rw [keys_assign]
  split
  · rename_i hk
    constructor
    · intro h; exact Or.inl h
    · rintro (h | h)
      · exact h
      · exact h ▸ hk
  · simp

theorem nodup_keys_register :
    ∀ (queries : List Query) (qitr : Nat) (m : stat_map), (m.map Prod.fst).Nodup →
      ((register_queries queries qitr m).map Prod.fst).Nodup := by
  intro queries
  induction queries with
  | nil => intro _ m h; simpa [register_queries] using h
  | cons q rest ih =>
    intro qitr m h
    simp only [register_queries]
    exact ih _ _ (nodup_keys_assign _ _ _ h)

theorem mem_keys_register :
    ∀ (queries : List Query) (qitr : Nat) (m : stat_map) (key : String),
      key ∈ (register_queries queries qitr m).map Prod.fst
        ↔ key ∈ m.map Prod.fst ∨ key ∈ batch_keys queries qitr := by
  intro queries
  induction queries with
  | nil => intro _ m key; simp [register_queries, batch_keys]
  | cons q rest ih =>
    intro qitr m key
    simp only [register_queries, batch_keys, List.mem_cons]
    rw [ih, mem_keys_assign]
    tauto

theorem find_register_of_not_mem :
    ∀ (queries : List Query) (qitr : Nat) (m : stat_map) (key : String),
      key ∉ batch_keys queries qitr →
      stat_map.find (register_queries queries qitr m) key = stat_map.find m key := by
  intro queries
  induction queries with
  | nil => intro _ m key _; simp [register_queries]
  | cons q rest ih =>
    intro qitr m key h
    simp only [batch_keys, List.mem_cons, not_or] at h
    simp only [register_queries]
    rw [ih _ _ _ h.2, find_assign]
    have hne : ¬ resolve_tqid q qitr = key := fun e => h.1 e.symm
    simp [hne]

theorem batch_keys_getElem :
    ∀ (queries : List Query) (qitr i : Nat) (q : Query), queries[i]? = some q →
      (batch_keys queries qitr)[i]? = some (resolve_tqid q (qitr + i)) := by
  intro queries
  induction queries with
  | nil => intro _ i q h; simp at h
  | cons q0 rest ih =>
    intro qitr i q h
    cases i with
    | zero => simp at h; simp [batch_keys, h]
    | succ i =>
      simp only [List.getElem?_cons_succ] at h
      simp only [batch_keys, List.getElem?_cons_succ]
      rw [ih (qitr + 1) i q h]
      simp [Nat.add_assoc, Nat.add_comm 1 i]

theorem batch_keys_length (queries : List Query) :
    ∀ qitr, (batch_keys queries qitr).length = queries.length := by
  induction queries with
  | nil => intro _; simp [batch_keys]
  | cons q rest ih => intro qitr; simp [batch_keys, ih]

/-- After the loop, the entry under the key of the query at position `i` is the
record built for the last query of the batch that resolves to the same key. -/
theorem find_register_last :
    ∀ (queries : List Query) (qitr : Nat) (m : stat_map) (i : Nat) (q : Query),
      queries[i]? = some q →
      ∃ (l : Nat) (ql : Query), queries[l]? = some ql ∧ i ≤ l ∧
        resolve_tqid ql (qitr + l) = resolve_tqid q (qitr + i) ∧
        (∀ (l' : Nat) (ql' : Query), queries[l']? = some ql' → l < l' →
          resolve_tqid ql' (qitr + l') ≠ resolve_tqid q (qitr + i)) ∧
        stat_map.find (register_queries queries qitr m) (resolve_tqid q (qitr + i))
          = some (block_max_score_query_stat_logging.make (resolve_tqid q (qitr + i))
              ql.terms.length 0) := by
  intro queries
  induction queries with
  | nil => intro _ _ i q h; simp at h
  | cons q0 rest ih =>
    intro qitr m i q h
    cases i with
    | succ i =>
      simp only [List.getElem?_cons_succ] at h
      obtain ⟨l, ql, h1, h2, h3, h4, h5⟩ :=
        ih (qitr + 1) (stat_map.assign m (resolve_tqid q0 qitr)
          (block_max_score_query_stat_logging.make (resolve_tqid q0 qitr) q0.terms.length 0)) i q h
      have e1 : qitr + 1 + i = qitr + (i + 1) := by omega
      have e2 : qitr + 1 + l = qitr + (l + 1) := by omega
      rw [e1] at h3 h4 h5
      rw [e2] at h3
      refine ⟨l + 1, ql, by simpa using h1, by omega, h3, ?_, ?_⟩
      · intro l' ql' hl' hlt
        cases l' with
        | zero => omega
        | succ l' =>
          simp only [List.getElem?_cons_succ] at hl'
          have := h4 l' ql' hl' (by omega)
          have e3 : qitr + 1 + l' = qitr + (l' + 1) := by omega
          rwa [e3] at this
      · simpa [register_queries] using h5
    | zero =>
      simp only [List.getElem?_cons_zero, Option.some.injEq] at h
      subst h
      by_cases hk : resolve_tqid q0 qitr ∈ batch_keys rest (qitr + 1)
      · obtain ⟨i', hi'⟩ := List.getElem?_of_mem hk
        have hlt : i' < rest.length := by
          have := (List.getElem?_eq_some.mp hi').1
          rwa [batch_keys_length] at this
        have hq' : rest[i']? = some rest[i'] := List.getElem?_eq_getElem hlt
        have hkey := batch_keys_getElem rest (qitr + 1) i' _ hq'
        rw [hi'] at hkey
        simp only [Option.some.injEq] at hkey
        obtain ⟨l, ql, h1, h2, h3, h4, h5⟩ :=
          ih (qitr + 1) (stat_map.assign m (resolve_tqid q0 qitr)
            (block_max_score_query_stat_logging.make (resolve_tqid q0 qitr) q0.terms.length 0))
            i' _ hq'
        rw [← hkey] at h3 h4 h5
        have e2 : qitr + 1 + l = qitr + (l + 1) := by omega
        rw [e2] at h3
        refine ⟨l + 1, ql, by simpa using h1, by omega, by simpa using h3, ?_, ?_⟩
        · intro l' ql' hl' hlt'
          cases l' with
          | zero => omega
          | succ l' =>
            simp only [List.getElem?_cons_succ] at hl'
            have := h4 l' ql' hl' (by omega)
            have e3 : qitr + 1 + l' = qitr + (l' + 1) := by omega
            rw [e3] at this
            simpa using this
        · simpa [register_queries] using h5
      · refine ⟨0, q0, by simp, le_refl _, rfl, ?_, ?_⟩
        · intro l' ql' hl' hlt'
          cases l' with
          | zero => omega
          | succ l' =>
            simp only [List.getElem?_cons_succ] at hl'
            intro e
            apply hk
            have := batch_keys_getElem rest (qitr + 1) l' ql' hl'
            have e3 : qitr + 1 + l' = qitr + (l' + 1) := by omega
            rw [e3, e] at this
            exact (List.mem_iff_getElem?.mpr ⟨l', this⟩)
        · simp only [register_queries, Nat.add_zero]
          rw [find_register_of_not_mem _ _ _ _ hk, find_assign]
          simp

/-- Started on an empty map, the loop leaves one entry per distinct key. -/
theorem register_length (queries : List Query) :
    (register_queries queries 0 []).length = (batch_keys queries 0).dedup.length := by
  have hperm : ((register_queries queries 0 []).map Prod.fst).Perm (batch_keys queries 0).dedup := by
    apply (List.perm_ext_iff_of_nodup (nodup_keys_register _ _ _ (by simp))
      (List.nodup_dedup _)).mpr
    intro key
    rw [mem_keys_register, List.mem_dedup]
    simp
  simpa using hperm.length_eq

theorem parallel_for_length (queries : List Query) (schedule : List (Fin queries.length)) :
    ∀ s : batch_state,
      (parallel_for queries schedule s).1.raw_results.length = s.raw_results.length := by
  induction schedule with
  | nil => intro s; simp [parallel_for]
  | cons i rest ih =>
    intro s
    simp only [parallel_for]
    cases hq : s.query_fun with
    | none => simp [parallel_body, hq]
    | some f =>
      simp only [parallel_body, hq]
      rw [ih]
      simp

/-- The fields of a run, read off the state the parallel phase reached. -/
theorem evaluate_queries_fields (queries : List Query) (thr : Option String)
    (type query_type docs run_id iteration : String) (schedule : List (Fin queries.length))
    (m0 : stat_map) :
    (evaluate_queries c k weighted queries thr type query_type docs run_id iteration
        schedule m0)
      = { errors := (select_query_fun c k weighted query_type).2,
          query_stat_logging := (parallel_for queries schedule
            (batch_start c k weighted queries query_type m0)).1.query_stat_logging,
          raw_results := (parallel_for queries schedule
            (batch_start c k weighted queries query_type m0)).1.raw_results,
          calls := (parallel_for queries schedule
            (batch_start c k weighted queries query_type m0)).1.calls,
          stored := (parallel_for queries schedule
            (batch_start c k weighted queries query_type m0)).1.stored,
          output :=
            if (parallel_for queries schedule
                (batch_start c k weighted queries query_type m0)).2 = none then
              output_loop (parallel_for queries schedule
                  (batch_start c k weighted queries query_type m0)).1.query_stat_logging queries
                (parallel_for queries schedule
                  (batch_start c k weighted queries query_type m0)).1.raw_results 0
            else [],
          thrown := (parallel_for queries schedule
            (batch_start c k weighted queries query_type m0)).2 } := by
  unfold evaluate_queries
  cases hp : (parallel_for queries schedule (batch_start c k weighted queries query_type m0)).2
    <;> simp [hp]

/-- A run that ends without an exception printed the output loop's lines over
a result buffer with one slot per query. -/
theorem output_of_completed_run (queries : List Query) (thr : Option String)
    (type query_type docs run_id iteration : String) (schedule : List (Fin queries.length))
    (m0 : stat_map)
    (h : (evaluate_queries c k weighted queries thr type query_type docs run_id iteration
      schedule m0).thrown = none) :
    (evaluate_queries c k weighted queries thr type query_type docs run_id iteration
        schedule m0).output
      = output_loop
          (evaluate_queries c k weighted queries thr type query_type docs run_id iteration
            schedule m0).query_stat_logging queries
          (evaluate_queries c k weighted queries thr type query_type docs run_id iteration
            schedule m0).raw_results 0 ∧
    (evaluate_queries c k weighted queries thr type query_type docs run_id iteration
        schedule m0).raw_results.length = queries.length := by
  rw [evaluate_queries_fields] at h ⊢
  have hlen := parallel_for_length queries schedule
    (batch_start c k weighted queries query_type m0)
  simp only at h
  refine ⟨by simp [h], ?_⟩
  simpa [batch_start] using hlen

/-- With a recognised name the run completes, whatever the schedule. -/
theorem run_of_recognised (queries : List Query) (thr : Option String)
    (type query_type docs run_id iteration : String) (schedule : List (Fin queries.length))
    (m0 : stat_map) (h : query_type ∈ recognised_names) :
    (evaluate_queries c k weighted queries thr type query_type docs run_id iteration
      schedule m0).thrown = none := by
  obtain ⟨f, hf⟩ := select_of_recognised c k weighted query_type h
  have hs : (batch_start c k weighted queries query_type m0).query_fun = some f := by
    simp [batch_start, hf]
  obtain ⟨h1, -⟩ := parallel_for_set_fun queries schedule _ f hs
  rw [evaluate_queries_fields]
  exact h1

/-! ## The claims -/

/-- C1, at its failing input.  For the batch of one query without id, run with
`block_max_maxscore`: the pre-registration key and the printed qid are the
decimal string of the position, "0", but the id the lambda hands to the
`block_max_maxscore_query` object is "42".  On the toy collaborators the loop
counter of the run lands under "42" and the printed line for qid 0 shows 0. -/
theorem block_max_maxscore_fallback_id_is_42 :
    resolve_tqid ⟨none, [3, 1, 2]⟩ 0 = "0" ∧
    block_max_maxscore_tqid ⟨none, [3, 1, 2]⟩ = "42" ∧
    block_max_maxscore_tqid ⟨none, [3, 1, 2]⟩ ≠ resolve_tqid ⟨none, [3, 1, 2]⟩ 0 ∧
    (evaluate_queries toy 2 false [⟨none, [3, 1, 2]⟩] none "" "block_max_maxscore" "docs"
        "R0" "Q0" [⟨0, by decide⟩] []).query_stat_logging.map Prod.fst = ["0", "42"] ∧
    (stat_map.read (evaluate_queries toy 2 false [⟨none, [3, 1, 2]⟩] none ""
        "block_max_maxscore" "docs" "R0" "Q0" [⟨0, by decide⟩] []).query_stat_logging
        "42").while_cnt = 3 ∧
    (evaluate_queries toy 2 false [⟨none, [3, 1, 2]⟩] none "" "block_max_maxscore" "docs"
        "R0" "Q0" [⟨0, by decide⟩] []).output
      = [format_line "0" (block_max_score_query_stat_logging.make "0" 3 0)] := by
  decide

/-- C2.  For a name the dispatch does not recognise, and any batch, schedule and
initial map: the error is reported (once), no query function body runs, no slot
of `raw_results` is assigned (all stay empty) and no output line is printed. -/
theorem unsupported_name_evaluates_no_query (queries : List Query) (thr : Option String)
    (type query_type docs run_id iteration : String) (schedule : List (Fin queries.length))
    (m0 : stat_map) (h : query_type ∉ recognised_names)
    (hs : valid_schedule queries.length schedule) :
    (evaluate_queries c k weighted queries thr type query_type docs run_id iteration
        schedule m0).errors = [unsupported_message query_type] ∧
    (evaluate_queries c k weighted queries thr type query_type docs run_id iteration
        schedule m0).calls = [] ∧
    (evaluate_queries c k weighted queries thr type query_type docs run_id iteration
        schedule m0).stored = [] ∧
    (evaluate_queries c k weighted queries thr type query_type docs run_id iteration
        schedule m0).raw_results = List.replicate queries.length [] ∧
    (evaluate_queries c k weighted queries thr type query_type docs run_id iteration
        schedule m0).output = [] := by
  have hsel := select_of_not_recognised c k weighted query_type h
  have hq : (batch_start c k weighted queries query_type m0).query_fun = none := by
    simp [batch_start, hsel]
  have hp := parallel_for_empty_fun queries schedule _ hq
  rw [evaluate_queries_fields, hp, hsel]
  cases schedule with
  | nil =>
    have hn : queries.length = 0 := by
      have := hs.length_eq
      simpa using this.symm
    have hnil : queries = [] := List.length_eq_zero.mp hn
    subst hnil
    simp [batch_start, output_loop]
  | cons i rest => simp [batch_start]

/-- Witness of C2: the name "foo" on a batch of two queries, second query run first. -/
theorem unsupported_name_evaluates_no_query_witness :
    "foo" ∉ recognised_names ∧
    valid_schedule 2 [⟨1, by decide⟩, ⟨0, by decide⟩] ∧
    (evaluate_queries toy 2 false [⟨none, [3, 1, 2]⟩, ⟨some "q7", [5]⟩] none "" "foo" "docs"
        "R0" "Q0" [⟨1, by decide⟩, ⟨0, by decide⟩] []).errors = [unsupported_message "foo"] ∧
    (evaluate_queries toy 2 false [⟨none, [3, 1, 2]⟩, ⟨some "q7", [5]⟩] none "" "foo" "docs"
        "R0" "Q0" [⟨1, by decide⟩, ⟨0, by decide⟩] []).calls = [] ∧
    (evaluate_queries toy 2 false [⟨none, [3, 1, 2]⟩, ⟨some "q7", [5]⟩] none "" "foo" "docs"
        "R0" "Q0" [⟨1, by decide⟩, ⟨0, by decide⟩] []).stored = [] ∧
    (evaluate_queries toy 2 false [⟨none, [3, 1, 2]⟩, ⟨some "q7", [5]⟩] none "" "foo" "docs"
        "R0" "Q0" [⟨1, by decide⟩, ⟨0, by decide⟩] []).raw_results = List.replicate 2 [] ∧
    (evaluate_queries toy 2 false [⟨none, [3, 1, 2]⟩, ⟨some "q7", [5]⟩] none "" "foo" "docs"
        "R0" "Q0" [⟨1, by decide⟩, ⟨0, by decide⟩] []).output = [] :=
  ⟨by decide, by decide,
    unsupported_name_evaluates_no_query toy 2 false [⟨none, [3, 1, 2]⟩, ⟨some "q7", [5]⟩] none ""
      "foo" "docs" "R0" "Q0" [⟨1, by decide⟩, ⟨0, by decide⟩] [] (by decide) (by decide)⟩

/-- C3, at its failing input.  With the unrecognised name "foo" and a batch of
one query, the run does not complete with a result per query: the empty
`std::function` is invoked and `std::bad_function_call` is thrown, after the
error was reported; nothing is printed. -/
theorem unsupported_name_throws_bad_function_call :
    (evaluate_queries toy 2 false [⟨some "q1", [3, 1, 2]⟩] none "" "foo" "docs" "R0" "Q0"
        [⟨0, by decide⟩] []).thrown = some Exception.bad_function_call ∧
    (evaluate_queries toy 2 false [⟨some "q1", [3, 1, 2]⟩] none "" "foo" "docs" "R0" "Q0"
        [⟨0, by decide⟩] []).errors = ["Unsupported query type: foo"] ∧
    (evaluate_queries toy 2 false [⟨some "q1", [3, 1, 2]⟩] none "" "foo" "docs" "R0" "Q0"
        [⟨0, by decide⟩] []).output = [] := by
  decide

/-- C4.  With a recognised name, whatever the order the parallel iterations ran
in, the run completes and prints exactly one line per query, and line `i` is
the line of query `i`: its text is "qid:" followed by the query's id, or by
the decimal string of `i` when the id is absent, followed by the seventeen
labelled counters of the record stored under that qid. -/
theorem output_lines_follow_query_order (queries : List Query) (thr : Option String)
    (type query_type docs run_id iteration : String) (schedule : List (Fin queries.length))
    (m0 : stat_map) (h : query_type ∈ recognised_names) :
    (evaluate_queries c k weighted queries thr type query_type docs run_id iteration
        schedule m0).thrown = none ∧
    (evaluate_queries c k weighted queries thr type query_type docs run_id iteration
        schedule m0).output.length = queries.length ∧
    ∀ (i : Nat) (hi : i < queries.length),
      ∃ r : block_max_score_query_stat_logging,
        r = stat_map.read
          (evaluate_queries c k weighted queries thr type query_type docs run_id iteration
            schedule m0).query_stat_logging
          ((queries.get ⟨i, hi⟩).id.getD (toString i)) ∧
        (evaluate_queries c k weighted queries thr type query_type docs run_id iteration
            schedule m0).output[i]?
          = some ("qid:" ++ (queries.get ⟨i, hi⟩).id.getD (toString i)
              ++ ",\ttermcnt:" ++ toString r.term_cnt ++ ",\twcnt:" ++ toString r.while_cnt
              ++ ",\tnon_es:" ++ toString r.non_ess_val ++ ",\toc_size" ++ toString r.oc_size
              ++ ",\tf1:" ++ toString r.f1_cnt_total ++ ",\tf2:" ++ toString r.f2_cnt_total
              ++ ",\tf3:" ++ toString r.f3_cnt_total ++ ",\tp1:" ++ toString r.p1_cnt_total
              ++ ",\tp2:" ++ toString r.p2_cnt_total ++ ",\tp3:" ++ toString r.p3_cnt_total
              ++ ",\tp4:" ++ toString r.p4_cnt_total ++ ",\tp5:" ++ toString r.p5_cnt_total
              ++ ",\tp6:" ++ toString r.p6_cnt_total ++ ",\tp7:" ++ toString r.p7_cnt_total
              ++ ",\tbr1:" ++ toString r.br1_cnt_total ++ ",\tbr2:" ++ toString r.br2_cnt_total
              ++ ",\n") := by
  have hthrown := run_of_recognised c k weighted queries thr type query_type docs run_id
    iteration schedule m0 h
  obtain ⟨hout, hlen⟩ := output_of_completed_run c k weighted queries thr type query_type docs
    run_id iteration schedule m0 hthrown
  refine ⟨hthrown, ?_, ?_⟩
  · rw [hout, output_loop_length _ _ _ _ hlen]
  · intro i hi
    refine ⟨_, rfl, ?_⟩
    rw [hout, output_loop_getElem _ _ _ _ hlen i hi]
    simp only [resolve_tqid, Nat.zero_add, format_line]

/-- Witness of C4: `wand` on a batch of two queries, second query run first; the
two lines come out in query order, the id-less first query as qid 0. -/
theorem output_lines_follow_query_order_witness :
    "wand" ∈ recognised_names ∧
    (evaluate_queries toy 2 false [⟨none, [3, 1, 2]⟩, ⟨some "q7", [5]⟩] none "" "wand" "docs"
        "R0" "Q0" [⟨1, by decide⟩, ⟨0, by decide⟩] []).output.length
      = [(⟨none, [3, 1, 2]⟩ : Query), ⟨some "q7", [5]⟩].length ∧
    (evaluate_queries toy 2 false [⟨none, [3, 1, 2]⟩, ⟨some "q7", [5]⟩] none "" "wand" "docs"
        "R0" "Q0" [⟨1, by decide⟩, ⟨0, by decide⟩] []).output
      = ["qid:0,\ttermcnt:3,\twcnt:0,\tnon_es:0,\toc_size0,\tf1:0,\tf2:0,\tf3:0,\tp1:0,\tp2:0,\tp3:0,\tp4:0,\tp5:0,\tp6:0,\tp7:0,\tbr1:0,\tbr2:0,\n",
         "qid:q7,\ttermcnt:1,\twcnt:0,\tnon_es:0,\toc_size0,\tf1:0,\tf2:0,\tf3:0,\tp1:0,\tp2:0,\tp3:0,\tp4:0,\tp5:0,\tp6:0,\tp7:0,\tbr1:0,\tbr2:0,\n"] :=
  ⟨by decide,
    (output_lines_follow_query_order toy 2 false [⟨none, [3, 1, 2]⟩, ⟨some "q7", [5]⟩] none ""
      "wand" "docs" "R0" "Q0" [⟨1, by decide⟩, ⟨0, by decide⟩] [] (by decide)).2.1,
    by decide⟩

/-- Counterexample to C5 as stated.  For the batch of two queries that both carry
the id "a", with one and two terms, the map on entry to the parallel phase has
one entry, not two, and the entry under the first query's key records term
count 2, not the first query's 1. -/
theorem registration_collapses_equal_ids :
    (batch_start toy 2 false [⟨some "a", [1]⟩, ⟨some "a", [1, 2]⟩] "wand"
        []).query_stat_logging.length = 1 ∧
    ¬ ((batch_start toy 2 false [⟨some "a", [1]⟩, ⟨some "a", [1, 2]⟩] "wand"
        []).query_stat_logging.length
        = [(⟨some "a", [1]⟩ : Query), ⟨some "a", [1, 2]⟩].length) ∧
    (stat_map.find (batch_start toy 2 false [⟨some "a", [1]⟩, ⟨some "a", [1, 2]⟩] "wand"
        []).query_stat_logging (resolve_tqid ⟨some "a", [1]⟩ 0)).map
          block_max_score_query_stat_logging.term_cnt = some 2 ∧
    ¬ ((stat_map.find (batch_start toy 2 false [⟨some "a", [1]⟩, ⟨some "a", [1, 2]⟩] "wand"
        []).query_stat_logging (resolve_tqid ⟨some "a", [1]⟩ 0)).map
          block_max_score_query_stat_logging.term_cnt
        = some (⟨some "a", [1]⟩ : Query).terms.length) := by
  decide

/-- C5, amended.  On entry to the parallel phase (global map empty before the
call) the map holds one entry per distinct key of the batch; the entry under
the key of query `i` has loop counter 0 and the term count of the last query of
the batch that resolves to that key; and when the keys of the batch are
pairwise distinct there are as many entries as queries and the entry under
query `i`'s key records query `i`'s own term count. -/
theorem registration_one_entry_per_key (queries : List Query) (query_type : String) :
    (batch_start c k weighted queries query_type []).query_stat_logging.length
      = (batch_keys queries 0).dedup.length ∧
    (∀ (i : Nat) (q : Query), queries[i]? = some q →
      ∃ (l : Nat) (ql : Query), queries[l]? = some ql ∧ i ≤ l ∧
        resolve_tqid ql l = resolve_tqid q i ∧
        (∀ (l' : Nat) (ql' : Query), queries[l']? = some ql' → l < l' →
          resolve_tqid ql' l' ≠ resolve_tqid q i) ∧
        stat_map.find (batch_start c k weighted queries query_type []).query_stat_logging
            (resolve_tqid q i)
          = some (block_max_score_query_stat_logging.make (resolve_tqid q i)
              ql.terms.length 0)) ∧
    ((batch_keys queries 0).Nodup →
      (batch_start c k weighted queries query_type []).query_stat_logging.length
        = queries.length ∧
      ∀ (i : Nat) (q : Query), queries[i]? = some q →
        stat_map.find (batch_start c k weighted queries query_type []).query_stat_logging
            (resolve_tqid q i)
          = some (block_max_score_query_stat_logging.make (resolve_tqid q i)
              q.terms.length 0)) := by
  have hlast : ∀ (i : Nat) (q : Query), queries[i]? = some q →
      ∃ (l : Nat) (ql : Query), queries[l]? = some ql ∧ i ≤ l ∧
        resolve_tqid ql l = resolve_tqid q i ∧
        (∀ (l' : Nat) (ql' : Query), queries[l']? = some ql' → l < l' →
          resolve_tqid ql' l' ≠ resolve_tqid q i) ∧
        stat_map.find (register_queries queries 0 []) (resolve_tqid q i)
          = some (block_max_score_query_stat_logging.make (resolve_tqid q i)
              ql.terms.length 0) := by
    intro i q hq
    have := find_register_last queries 0 [] i q hq
    simpa using this
  refine ⟨by simpa [batch_start] using register_length queries, hlast, ?_⟩
  intro hnd
  refine ⟨?_, ?_⟩
  · simp only [batch_start]
    rw [register_length, List.Nodup.dedup hnd, batch_keys_length]
  · intro i q hq
    obtain ⟨l, ql, h1, h2, h3, -, h5⟩ := hlast i q hq
    have hki := batch_keys_getElem queries 0 i q hq
    have hkl := batch_keys_getElem queries 0 l ql h1
    simp only [Nat.zero_add] at hki hkl
    rw [h3] at hkl
    have hil : l = i := by
      have hl' := (List.getElem?_eq_some.mp hkl)
      have hi' := (List.getElem?_eq_some.mp hki)
      obtain ⟨hl1, hl2⟩ := hl'
      obtain ⟨hi1, hi2⟩ := hi'
      exact (List.Nodup.getElem_inj_iff hnd).mp (hl2.trans hi2.symm)
    subst hil
    rw [h1] at hq
    simp only [Option.some.injEq] at hq
    subst hq
    exact h5

/-- Witness of C5 amended: a batch of two queries with distinct keys "0" and "q7". -/
theorem registration_one_entry_per_key_witness :
    (batch_keys [⟨none, [3, 1, 2]⟩, ⟨some "q7", [5]⟩] 0).Nodup ∧
    (batch_start toy 2 false [⟨none, [3, 1, 2]⟩, ⟨some "q7", [5]⟩] "wand"
        []).query_stat_logging.length
      = [(⟨none, [3, 1, 2]⟩ : Query), ⟨some "q7", [5]⟩].length :=
  ⟨by decide,
    ((registration_one_entry_per_key toy 2 false [⟨none, [3, 1, 2]⟩, ⟨some "q7", [5]⟩]
      "wand").2.2 (by decide)).1⟩

/-- The queue an insert-only algorithm leaves, once finalized, has the history
created, inserts, finalized. -/
theorem finalize_after_inserts (k : Nat) (t : topk_queue) (h : only_inserts (topk_queue.new k) t) :
    t.finalize.k = k ∧
    ∃ evs : List queue_event,
      t.finalize.history = queue_event.created k :: evs ++ [queue_event.finalized] ∧
      ∀ e ∈ evs, ∃ s d, e = queue_event.inserted s d := by
  obtain ⟨hk, evs, hh, hev⟩ := h
  refine ⟨by simpa [topk_queue.finalize, topk_queue.new] using hk, evs, ?_, hev⟩
  simp [topk_queue.finalize, hh, topk_queue.new]

theorem toy_offer_only_inserts (cs : List Nat) : ∀ t : topk_queue, only_inserts t (toy_offer t cs) := by
  induction cs with
  | nil => intro t; exact ⟨rfl, [], by simp [toy_offer], by simp⟩
  | cons x rest ih =>
    intro t
    obtain ⟨hk, evs, hh, hev⟩ := ih (t.insert x x)
    have hk' : (t.insert x x).k = t.k := by
      unfold topk_queue.insert
      split
      · rfl
      · split <;> rfl
    have hh' : (t.insert x x).history = t.history ++ [queue_event.inserted x x] := by
      unfold topk_queue.insert
      split
      · rfl
      · split <;> rfl
    refine ⟨?_, queue_event.inserted x x :: evs, ?_, ?_⟩
    · simpa [toy_offer] using hk.trans hk'
    · simp only [toy_offer, List.foldl_cons] at hh ⊢
      rw [hh, hh']
      simp
    · intro e he
      rcases List.mem_cons.mp he with h | h
      · exact ⟨x, x, h⟩
      · exact hev e h

theorem toy_insert_only : toy.insert_only :=
  ⟨fun t cs _ => toy_offer_only_inserts cs t, fun t cs _ => toy_offer_only_inserts cs t,
   fun t _ cs _ => toy_offer_only_inserts cs t, fun t cs _ => toy_offer_only_inserts cs t,
   fun t cs _ => toy_offer_only_inserts cs t, fun t cs _ => toy_offer_only_inserts cs t,
   fun t cs _ => toy_offer_only_inserts cs t, fun t cs _ _ => toy_offer_only_inserts cs t,
   fun t cs _ _ => toy_offer_only_inserts cs t⟩

/-- C6.  For every name with a branch in the dispatch, every call of the selected
query function (any captured state, query and statistics map): the value
returned is `topk()` of the local queue as it is at the return, and, the
algorithm classes acting on their queue through `insert` only, that queue has
capacity `k` and its history is: created with capacity `k`, then inserts, then
one `finalize()` as its last operation.  Name by name, the local queue at the
return is the finalized queue that the algorithm object of that name leaves
when it is built on a new queue of capacity `k` and applied to the query's
cursors and `num_docs` (and, for the term-at-a-time names, the captured
accumulator), and the value returned is that queue's `topk()`. -/
theorem query_fun_finalizes_once (query_type : String) (f : query_fun_t)
    (hc : c.insert_only)
    (hf : (select_query_fun c k weighted query_type).1 = some f)
    (st : f.State) (query : Query) (m : stat_map) :
    ((f.call st query m).value = (f.call st query m).topk.topk ∧
    (f.call st query m).topk.k = k ∧
    ∃ evs : List queue_event,
      (f.call st query m).topk.history
        = queue_event.created k :: evs ++ [queue_event.finalized] ∧
      (∀ e ∈ evs, ∃ s d, e = queue_event.inserted s d) ∧
      (f.call st query m).topk.history.count queue_event.finalized = 1) ∧
    ((select_query_fun c k weighted "wand").1 = some (wand_fun c k weighted) ∧
      ∀ st,
        ((wand_fun c k weighted).call st query m).topk
          = (c.wand_query (topk_queue.new k) (c.make_max_scored_cursors query weighted)
              c.num_docs).finalize ∧
        ((wand_fun c k weighted).call st query m).value
          = (c.wand_query (topk_queue.new k) (c.make_max_scored_cursors query weighted)
              c.num_docs).finalize.topk) ∧
    ((select_query_fun c k weighted "block_max_wand").1 = some (block_max_wand_fun c k weighted) ∧
      ∀ st,
        ((block_max_wand_fun c k weighted).call st query m).topk
          = (c.block_max_wand_query (topk_queue.new k) (c.make_block_max_scored_cursors query weighted)
              c.num_docs).finalize ∧
        ((block_max_wand_fun c k weighted).call st query m).value
          = (c.block_max_wand_query (topk_queue.new k) (c.make_block_max_scored_cursors query weighted)
              c.num_docs).finalize.topk) ∧
    ((select_query_fun c k weighted "block_max_maxscore").1 = some (block_max_maxscore_fun c k weighted) ∧
      ∀ st,
        ((block_max_maxscore_fun c k weighted).call st query m).topk
          = (c.block_max_maxscore_query (topk_queue.new k) (block_max_maxscore_tqid query) (c.make_block_max_scored_cursors query weighted)
              c.num_docs).finalize ∧
        ((block_max_maxscore_fun c k weighted).call st query m).value
          = (c.block_max_maxscore_query (topk_queue.new k) (block_max_maxscore_tqid query) (c.make_block_max_scored_cursors query weighted)
              c.num_docs).finalize.topk) ∧
    ((select_query_fun c k weighted "block_max_ranked_and").1 = some (block_max_ranked_and_fun c k weighted) ∧
      ∀ st,
        ((block_max_ranked_and_fun c k weighted).call st query m).topk
          = (c.block_max_ranked_and_query (topk_queue.new k) (c.make_block_max_scored_cursors query weighted)
              c.num_docs).finalize ∧
        ((block_max_ranked_and_fun c k weighted).call st query m).value
          = (c.block_max_ranked_and_query (topk_queue.new k) (c.make_block_max_scored_cursors query weighted)
              c.num_docs).finalize.topk) ∧
    ((select_query_fun c k weighted "ranked_and").1 = some (ranked_and_fun c k weighted) ∧
      ∀ st,
        ((ranked_and_fun c k weighted).call st query m).topk
          = (c.ranked_and_query (topk_queue.new k) (c.make_scored_cursors query weighted)
              c.num_docs).finalize ∧
        ((ranked_and_fun c k weighted).call st query m).value
          = (c.ranked_and_query (topk_queue.new k) (c.make_scored_cursors query weighted)
              c.num_docs).finalize.topk) ∧
    ((select_query_fun c k weighted "ranked_or").1 = some (ranked_or_fun c k weighted) ∧
      ∀ st,
        ((ranked_or_fun c k weighted).call st query m).topk
          = (c.ranked_or_query (topk_queue.new k) (c.make_scored_cursors query weighted)
              c.num_docs).finalize ∧
        ((ranked_or_fun c k weighted).call st query m).value
          = (c.ranked_or_query (topk_queue.new k) (c.make_scored_cursors query weighted)
              c.num_docs).finalize.topk) ∧
    ((select_query_fun c k weighted "maxscore").1 = some (maxscore_fun c k weighted) ∧
      ∀ st,
        ((maxscore_fun c k weighted).call st query m).topk
          = (c.maxscore_query (topk_queue.new k) (c.make_max_scored_cursors query weighted)
              c.num_docs).finalize ∧
        ((maxscore_fun c k weighted).call st query m).value
          = (c.maxscore_query (topk_queue.new k) (c.make_max_scored_cursors query weighted)
              c.num_docs).finalize.topk) ∧
    ((select_query_fun c k weighted "ranked_or_taat").1 = some (ranked_or_taat_fun c k weighted) ∧
      ∀ acc,
        ((ranked_or_taat_fun c k weighted).call acc query m).topk
          = (c.ranked_or_taat_simple (topk_queue.new k) (c.make_scored_cursors query weighted)
              c.num_docs acc).1.finalize ∧
        ((ranked_or_taat_fun c k weighted).call acc query m).value
          = (c.ranked_or_taat_simple (topk_queue.new k) (c.make_scored_cursors query weighted)
              c.num_docs acc).1.finalize.topk) ∧
    ((select_query_fun c k weighted "ranked_or_taat_lazy").1 = some (ranked_or_taat_lazy_fun c k weighted) ∧
      ∀ acc,
        ((ranked_or_taat_lazy_fun c k weighted).call acc query m).topk
          = (c.ranked_or_taat_lazy (topk_queue.new k) (c.make_scored_cursors query weighted)
              c.num_docs acc).1.finalize ∧
        ((ranked_or_taat_lazy_fun c k weighted).call acc query m).value
          = (c.ranked_or_taat_lazy (topk_queue.new k) (c.make_scored_cursors query weighted)
              c.num_docs acc).1.finalize.topk) := by
  refine ⟨?_, ⟨by simp [select_query_fun], fun _ => ⟨rfl, rfl⟩⟩,
    ⟨by simp [select_query_fun], fun _ => ⟨rfl, rfl⟩⟩,
    ⟨by simp [select_query_fun], fun _ => ⟨rfl, rfl⟩⟩,
    ⟨by simp [select_query_fun], fun _ => ⟨rfl, rfl⟩⟩,
    ⟨by simp [select_query_fun], fun _ => ⟨rfl, rfl⟩⟩,
    ⟨by simp [select_query_fun], fun _ => ⟨rfl, rfl⟩⟩,
    ⟨by simp [select_query_fun], fun _ => ⟨rfl, rfl⟩⟩,
    ⟨by simp [select_query_fun], fun _ => ⟨rfl, rfl⟩⟩,
    ⟨by simp [select_query_fun], fun _ => ⟨rfl, rfl⟩⟩⟩
  obtain ⟨h1, h2, h3, h4, h5, h6, h7, h8, h9⟩ := hc
  have key : ∀ t : topk_queue, only_inserts (topk_queue.new k) t →
      t.finalize.k = k ∧ ∃ evs : List queue_event,
        t.finalize.history = queue_event.created k :: evs ++ [queue_event.finalized] ∧
        (∀ e ∈ evs, ∃ s d, e = queue_event.inserted s d) ∧
        t.finalize.history.count queue_event.finalized = 1 := by
    intro t ht
    obtain ⟨hk, evs, hh, hev⟩ := finalize_after_inserts k t ht
    refine ⟨hk, evs, hh, hev, ?_⟩
    rw [hh]
    have hz : evs.count queue_event.finalized = 0 := by
      apply List.count_eq_zero.mpr
      intro hmem
      obtain ⟨s, d, hsd⟩ := hev _ hmem
      cases hsd
    simp [List.count_cons, hz]
  unfold select_query_fun at hf
  split_ifs at hf <;> simp only [Option.some.injEq] at hf <;> subst hf
  · exact ⟨rfl, key _ (h1 _ _ _)⟩
  · exact ⟨rfl, key _ (h2 _ _ _)⟩
  · exact ⟨rfl, key _ (h3 _ _ _ _)⟩
  · exact ⟨rfl, key _ (h4 _ _ _)⟩
  · exact ⟨rfl, key _ (h5 _ _ _)⟩
  · exact ⟨rfl, key _ (h6 _ _ _)⟩
  · exact ⟨rfl, key _ (h7 _ _ _)⟩
  · exact ⟨rfl, key _ (h8 _ _ _ _)⟩
  · exact ⟨rfl, key _ (h9 _ _ _ _)⟩

/-- Witness of C6: the `maxscore` lambda over the toy collaborators, `k = 2`, on
a query of three terms: the queue at the return is the finalized queue of the
toy `maxscore_query` run, holding the two best of the three offers. -/
theorem query_fun_finalizes_once_witness :
    toy.insert_only ∧
    (select_query_fun toy 2 false "maxscore").1 = some (maxscore_fun toy 2 false) ∧
    ((maxscore_fun toy 2 false).call () ⟨none, [3, 1, 2]⟩ []).value
      = ((maxscore_fun toy 2 false).call () ⟨none, [3, 1, 2]⟩ []).topk.topk ∧
    ((maxscore_fun toy 2 false).call () ⟨none, [3, 1, 2]⟩ []).topk.k = 2 ∧
    ((maxscore_fun toy 2 false).call () ⟨none, [3, 1, 2]⟩ []).topk.history.count
      queue_event.finalized = 1 ∧
    ((maxscore_fun toy 2 false).call () ⟨none, [3, 1, 2]⟩ []).topk
      = (toy.maxscore_query (topk_queue.new 2)
          (toy.make_max_scored_cursors ⟨none, [3, 1, 2]⟩ false) toy.num_docs).finalize ∧
    ((maxscore_fun toy 2 false).call () ⟨none, [3, 1, 2]⟩ []).topk.history
      = [queue_event.created 2, queue_event.inserted 3 3, queue_event.inserted 1 1,
         queue_event.inserted 2 2, queue_event.finalized] ∧
    ((maxscore_fun toy 2 false).call () ⟨none, [3, 1, 2]⟩ []).value = [(3, 3), (2, 2)] :=
  ⟨toy_insert_only, rfl,
    (query_fun_finalizes_once toy 2 false "maxscore" (maxscore_fun toy 2 false) toy_insert_only
      rfl () ⟨none, [3, 1, 2]⟩ []).1.1,
    (query_fun_finalizes_once toy 2 false "maxscore" (maxscore_fun toy 2 false) toy_insert_only
      rfl () ⟨none, [3, 1, 2]⟩ []).1.2.1,
    (query_fun_finalizes_once toy 2 false "maxscore" (maxscore_fun toy 2 false) toy_insert_only
      rfl () ⟨none, [3, 1, 2]⟩ []).1.2.2.elim (fun _ hh => hh.2.2),
    ((query_fun_finalizes_once toy 2 false "maxscore" (maxscore_fun toy 2 false) toy_insert_only
      rfl () ⟨none, [3, 1, 2]⟩ []).2.2.2.2.2.2.2.1.2 ()).1,
    by decide, by decide⟩

/-- Counterexample to C7 as stated.  The name `block_max_ranked_and` is not one of
the eight names the specification lists, and the dispatch selects a query
function for it and reports no error. -/
theorem block_max_ranked_and_is_selected :
    "block_max_ranked_and" ∉ spec_names ∧
    ((select_query_fun toy 2 false "block_max_ranked_and").1).isSome = true ∧
    (select_query_fun toy 2 false "block_max_ranked_and").2 = [] := by
  refine ⟨by decide, ?_, ?_⟩ <;> simp [select_query_fun]

/-- C7, amended.  The names for which a query function is selected are exactly
nine: the eight the specification lists and `block_max_ranked_and`.  Each is
bound to its own algorithm: the function selected for a name returns `topk()`
of the finalized queue left by that name's algorithm class, built on a new
queue of capacity `k` and applied to the query's cursors and `num_docs` (the
`block_max_maxscore` one also given the query id and acting on the statistics
map; the two term-at-a-time ones given the accumulator they capture, created
for `num_docs`, and keeping the accumulator the run leaves).  For every other
name the `std::function` stays empty and the name is reported as unsupported. -/
theorem dispatch_selects_nine_names (query_type : String) :
    (((select_query_fun c k weighted query_type).1).isSome = true
      ↔ query_type ∈ recognised_names) ∧
    (∀ name, name ∈ recognised_names ↔ name ∈ spec_names ∨ name = "block_max_ranked_and") ∧
    (select_query_fun c k weighted "wand" = (some (wand_fun c k weighted), []) ∧
      ∀ st query m,
        ((wand_fun c k weighted).call st query m).value
          = (c.wand_query (topk_queue.new k) (c.make_max_scored_cursors query weighted)
              c.num_docs).finalize.topk) ∧
    (select_query_fun c k weighted "block_max_wand" = (some (block_max_wand_fun c k weighted), []) ∧
      ∀ st query m,
        ((block_max_wand_fun c k weighted).call st query m).value
          = (c.block_max_wand_query (topk_queue.new k) (c.make_block_max_scored_cursors query weighted)
              c.num_docs).finalize.topk) ∧
    (select_query_fun c k weighted "block_max_maxscore"
        = (some (block_max_maxscore_fun c k weighted), []) ∧
      ∀ st query m,
        ((block_max_maxscore_fun c k weighted).call st query m).value
          = (c.block_max_maxscore_query (topk_queue.new k) (block_max_maxscore_tqid query)
              (c.make_block_max_scored_cursors query weighted) c.num_docs).finalize.topk ∧
        ((block_max_maxscore_fun c k weighted).call st query m).query_stat_logging
          = c.block_max_maxscore_counters (block_max_maxscore_tqid query)
              (c.make_block_max_scored_cursors query weighted) c.num_docs m) ∧
    (select_query_fun c k weighted "block_max_ranked_and" = (some (block_max_ranked_and_fun c k weighted), []) ∧
      ∀ st query m,
        ((block_max_ranked_and_fun c k weighted).call st query m).value
          = (c.block_max_ranked_and_query (topk_queue.new k) (c.make_block_max_scored_cursors query weighted)
              c.num_docs).finalize.topk) ∧
    (select_query_fun c k weighted "ranked_and" = (some (ranked_and_fun c k weighted), []) ∧
      ∀ st query m,
        ((ranked_and_fun c k weighted).call st query m).value
          = (c.ranked_and_query (topk_queue.new k) (c.make_scored_cursors query weighted)
              c.num_docs).finalize.topk) ∧
    (select_query_fun c k weighted "ranked_or" = (some (ranked_or_fun c k weighted), []) ∧
      ∀ st query m,
        ((ranked_or_fun c k weighted).call st query m).value
          = (c.ranked_or_query (topk_queue.new k) (c.make_scored_cursors query weighted)
              c.num_docs).finalize.topk) ∧
    (select_query_fun c k weighted "maxscore" = (some (maxscore_fun c k weighted), []) ∧
      ∀ st query m,
        ((maxscore_fun c k weighted).call st query m).value
          = (c.maxscore_query (topk_queue.new k) (c.make_max_scored_cursors query weighted)
              c.num_docs).finalize.topk) ∧
    (select_query_fun c k weighted "ranked_or_taat" = (some (ranked_or_taat_fun c k weighted), []) ∧
      (ranked_or_taat_fun c k weighted).state = c.new_simple_accumulator c.num_docs ∧
      ∀ acc query m,
        ((ranked_or_taat_fun c k weighted).call acc query m).value
          = (c.ranked_or_taat_simple (topk_queue.new k) (c.make_scored_cursors query weighted)
              c.num_docs acc).1.finalize.topk ∧
        ((ranked_or_taat_fun c k weighted).call acc query m).state
          = (c.ranked_or_taat_simple (topk_queue.new k) (c.make_scored_cursors query weighted)
              c.num_docs acc).2) ∧
    (select_query_fun c k weighted "ranked_or_taat_lazy" = (some (ranked_or_taat_lazy_fun c k weighted), []) ∧
      (ranked_or_taat_lazy_fun c k weighted).state = c.new_lazy_accumulator c.num_docs ∧
      ∀ acc query m,
        ((ranked_or_taat_lazy_fun c k weighted).call acc query m).value
          = (c.ranked_or_taat_lazy (topk_queue.new k) (c.make_scored_cursors query weighted)
              c.num_docs acc).1.finalize.topk ∧
        ((ranked_or_taat_lazy_fun c k weighted).call acc query m).state
          = (c.ranked_or_taat_lazy (topk_queue.new k) (c.make_scored_cursors query weighted)
              c.num_docs acc).2) ∧
    (query_type ∉ recognised_names →
      select_query_fun c k weighted query_type = (none, [unsupported_message query_type])) := by
  refine ⟨?_, ?_, ⟨by simp [select_query_fun], fun _ _ _ => rfl⟩,
    ⟨by simp [select_query_fun], fun _ _ _ => rfl⟩,
    ⟨by simp [select_query_fun], fun _ _ _ => ⟨rfl, rfl⟩⟩,
    ⟨by simp [select_query_fun], fun _ _ _ => rfl⟩,
    ⟨by simp [select_query_fun], fun _ _ _ => rfl⟩,
    ⟨by simp [select_query_fun], fun _ _ _ => rfl⟩,
    ⟨by simp [select_query_fun], fun _ _ _ => rfl⟩,
    ⟨by simp [select_query_fun], rfl, fun _ _ _ => ⟨rfl, rfl⟩⟩,
    ⟨by simp [select_query_fun], rfl, fun _ _ _ => ⟨rfl, rfl⟩⟩,
    select_of_not_recognised c k weighted _⟩
  · constructor
    · intro h
      by_contra hn
      rw [select_of_not_recognised c k weighted _ hn] at h
      simp at h
    · intro h
      obtain ⟨f, hf⟩ := select_of_recognised c k weighted _ h
      simp [hf]
  · intro name
    simp only [recognised_names, spec_names, List.mem_cons, List.mem_singleton,
      List.mem_nil_iff, or_false]
    tauto

/-- Witness of C7 amended: the name "foo" is not recognised and leaves the
function empty. -/
theorem dispatch_selects_nine_names_witness :
    "foo" ∉ recognised_names ∧
    select_query_fun toy 2 false "foo" = (none, [unsupported_message "foo"]) :=
  ⟨by decide, (dispatch_selects_nine_names toy 2 false "foo").2.2.2.2.2.2.2.2.2.2.2 (by decide)⟩

/-- The lambdas of the accumulator-free names return a value that is a function
of the query alone. -/
theorem accumulator_free_value (query_type : String) (f : query_fun_t)
    (hn : query_type ∈ accumulator_free_names)
    (hf : (select_query_fun c k weighted query_type).1 = some f)
    (st st' : f.State) (query : Query) (m m' : stat_map) :
    (f.call st query m).value = (f.call st' query m').value := by
  simp only [accumulator_free_names, List.mem_cons, List.mem_singleton, List.mem_nil_iff,
    or_false] at hn
  rcases hn with h | h | h | h | h | h | h <;> subst h <;>
    simp only [select_query_fun, String.reduceEq, if_true, if_false, Option.some.injEq] at hf <;>
    subst hf <;> rfl

/-- C9.  With a recognised name and a schedule that runs every position once:
`raw_results` has one slot per query; slot `i` holds the value returned by the
call of the selected query function on query `i` (made with the captured state
and statistics map left by the iterations scheduled before it); and for the
names that capture no accumulator that value is the same for every captured
state and every statistics map, so it is a function of query `i` alone. -/
theorem slots_hold_own_query_value (queries : List Query) (thr : Option String)
    (type query_type docs run_id iteration : String) (schedule : List (Fin queries.length))
    (m0 : stat_map) (h : query_type ∈ recognised_names)
    (hs : valid_schedule queries.length schedule) :
    (evaluate_queries c k weighted queries thr type query_type docs run_id iteration
        schedule m0).raw_results.length = queries.length ∧
    ∃ f : query_fun_t, (select_query_fun c k weighted query_type).1 = some f ∧
      (∀ i : Fin queries.length, ∃ (pre post : List (Fin queries.length)) (st : f.State),
        schedule = pre ++ i :: post ∧
        (parallel_for queries pre (batch_start c k weighted queries query_type m0)).1.query_fun
          = some { f with state := st } ∧
        (evaluate_queries c k weighted queries thr type query_type docs run_id iteration
            schedule m0).raw_results[i.val]?
          = some (f.call st (queries.get i)
              (parallel_for queries pre
                (batch_start c k weighted queries query_type m0)).1.query_stat_logging).value) ∧
      (query_type ∈ accumulator_free_names →
        ∀ (i : Fin queries.length) (st : f.State) (m : stat_map),
          (evaluate_queries c k weighted queries thr type query_type docs run_id iteration
              schedule m0).raw_results[i.val]?
            = some (f.call st (queries.get i) m).value) := by
  obtain ⟨f, hf⟩ := select_of_recognised c k weighted query_type h
  have hf1 : (select_query_fun c k weighted query_type).1 = some f := by rw [hf]
  have hstart : (batch_start c k weighted queries query_type m0).query_fun = some f := by
    simp [batch_start, hf]
  have hnodup : schedule.Nodup := (List.Perm.nodup_iff hs).mpr (List.nodup_finRange _)
  have hslot : ∀ i : Fin queries.length, ∃ (pre post : List (Fin queries.length))
      (st : f.State), schedule = pre ++ i :: post ∧
      (parallel_for queries pre (batch_start c k weighted queries query_type m0)).1.query_fun
        = some { f with state := st } ∧
      (evaluate_queries c k weighted queries thr type query_type docs run_id iteration
          schedule m0).raw_results[i.val]?
        = some (f.call st (queries.get i)
            (parallel_for queries pre
              (batch_start c k weighted queries query_type m0)).1.query_stat_logging).value := by
    intro i
    have hmem : i ∈ schedule := (List.Perm.mem_iff hs).mpr (List.mem_finRange i)
    obtain ⟨pre, post, hsplit⟩ := List.append_of_mem hmem
    obtain ⟨hpre2, ⟨st, hpreq⟩, hprelen, -, -⟩ :=
      parallel_for_set_fun queries pre (batch_start c k weighted queries query_type m0) f hstart
    refine ⟨pre, post, st, hsplit, hpreq, ?_⟩
    have hpost : i ∉ post := by
      rw [hsplit] at hnodup
      have := (List.nodup_append.mp hnodup).2.1
      exact (List.nodup_cons.mp this).1
    rw [evaluate_queries_fields]
    simp only
    rw [hsplit, parallel_for_append queries pre (i :: post) _ hpre2]
    rw [parallel_for_slot queries i post _ _ hpreq (by
      rw [hprelen]; simp [batch_start]) hpost]
    rfl
  refine ⟨?_, f, hf1, hslot, ?_⟩
  · rw [evaluate_queries_fields]
    simp only
    rw [parallel_for_length]
    simp [batch_start]
  · intro hfree i st m
    obtain ⟨pre, post, st', -, -, hval⟩ := hslot i
    rw [hval, accumulator_free_value c k weighted query_type f hfree hf1 st' st (queries.get i) _ m]

/-- Witness of C9: `ranked_or` on a batch of two queries, second query run first. -/
theorem slots_hold_own_query_value_witness :
    "ranked_or" ∈ recognised_names ∧
    valid_schedule 2 [⟨1, by decide⟩, ⟨0, by decide⟩] ∧
    (evaluate_queries toy 2 false [⟨none, [3, 1, 2]⟩, ⟨some "q7", [5]⟩] none "" "ranked_or"
        "docs" "R0" "Q0" [⟨1, by decide⟩, ⟨0, by decide⟩] []).raw_results.length = 2 :=
  ⟨by decide, by decide,
    (slots_hold_own_query_value toy 2 false [⟨none, [3, 1, 2]⟩, ⟨some "q7", [5]⟩] none ""
      "ranked_or" "docs" "R0" "Q0" [⟨1, by decide⟩, ⟨0, by decide⟩] [] (by decide)
      (by decide)).1⟩

/-- Counterexample to C10 as stated.  On the batch of the one query "q1", a
`wand` run and a run with the unrecognised name "foo" carry the same ids at
the same positions and leave the same statistics map, yet the first prints
one line and the second prints none. -/
theorem output_differs_for_unrecognised_name :
    (evaluate_queries toy 2 false [⟨some "q1", [3, 1, 2]⟩] none "" "wand" "docs" "R0" "Q0"
        [⟨0, by decide⟩] []).query_stat_logging
      = (evaluate_queries toy 2 false [⟨some "q1", [3, 1, 2]⟩] none "" "foo" "docs" "R0" "Q0"
        [⟨0, by decide⟩] []).query_stat_logging ∧
    (evaluate_queries toy 2 false [⟨some "q1", [3, 1, 2]⟩] none "" "wand" "docs" "R0" "Q0"
        [⟨0, by decide⟩] []).output.length = 1 ∧
    (evaluate_queries toy 2 false [⟨some "q1", [3, 1, 2]⟩] none "" "foo" "docs" "R0" "Q0"
        [⟨0, by decide⟩] []).output = [] ∧
    ¬ ((evaluate_queries toy 2 false [⟨some "q1", [3, 1, 2]⟩] none "" "wand" "docs" "R0" "Q0"
        [⟨0, by decide⟩] []).output
      = (evaluate_queries toy 2 false [⟨some "q1", [3, 1, 2]⟩] none "" "foo" "docs" "R0" "Q0"
        [⟨0, by decide⟩] []).output) := by
  decide

/-- C10, amended.  For runs that complete, as every run with a recognised name
does, the printed text is a function of the queries' ids, their positions and
the statistics records: the output loop gives the same lines for any two
result buffers of the same size; and any two completed runs whose batches
carry the same ids, and whose statistics maps read the same under every key,
print the same lines, whatever their collaborators (index, algorithms,
document lexicon), `k`, algorithm name, thresholds file name, run identifier,
iteration label, schedule and top-k results. -/
theorem output_depends_on_ids_and_records
    (c' : Collaborators) (k' : Nat) (weighted' : Bool)
    (queries queries' : List Query) (thr thr' : Option String)
    (type type' query_type query_type' docs docs' run_id run_id' iteration iteration' : String)
    (schedule : List (Fin queries.length)) (schedule' : List (Fin queries'.length))
    (m0 m0' : stat_map) :
    (query_type ∈ recognised_names →
      (evaluate_queries c k weighted queries thr type query_type docs run_id iteration
        schedule m0).thrown = none) ∧
    (∀ (m : stat_map) (raw raw' : List (List entry_type)) (idx : Nat),
      raw.length = raw'.length →
      output_loop m queries raw idx = output_loop m queries raw' idx) ∧
    ((evaluate_queries c k weighted queries thr type query_type docs run_id iteration
        schedule m0).thrown = none →
     (evaluate_queries c' k' weighted' queries' thr' type' query_type' docs' run_id' iteration'
        schedule' m0').thrown = none →
     queries.map Query.id = queries'.map Query.id →
     (∀ key, stat_map.read (evaluate_queries c k weighted queries thr type query_type docs
          run_id iteration schedule m0).query_stat_logging key
        = stat_map.read (evaluate_queries c' k' weighted' queries' thr' type' query_type' docs'
          run_id' iteration' schedule' m0').query_stat_logging key) →
     (evaluate_queries c k weighted queries thr type query_type docs run_id iteration
        schedule m0).output
      = (evaluate_queries c' k' weighted' queries' thr' type' query_type' docs' run_id'
        iteration' schedule' m0').output) := by
  refine ⟨run_of_recognised c k weighted queries thr type query_type docs run_id iteration
    schedule m0, ?_, ?_⟩
  · intro m raw raw' idx hlen
    exact output_loop_congr m m (fun _ => rfl) queries queries raw raw' idx rfl hlen
  · intro h1 h2 hids hread
    obtain ⟨ho, hl⟩ := output_of_completed_run c k weighted queries thr type query_type docs
      run_id iteration schedule m0 h1
    obtain ⟨ho', hl'⟩ := output_of_completed_run c' k' weighted' queries' thr' type'
      query_type' docs' run_id' iteration' schedule' m0' h2
    rw [ho, ho']
    apply output_loop_congr _ _ hread _ _ _ _ 0 hids
    rw [hl, hl']
    have := congrArg List.length hids
    simpa using this

/-- Witness of C10 amended: a `wand` run with `k = 2` and a `ranked_or` run with
`k = 1` over the same two ids, with different file names, run ids, labels and
schedules, both complete and print the same lines. -/
theorem output_depends_on_ids_and_records_witness :
    (evaluate_queries toy 2 false [⟨none, [3, 1, 2]⟩, ⟨some "q7", [5]⟩] none "" "wand" "docs"
        "R0" "Q0" [⟨1, by decide⟩, ⟨0, by decide⟩] []).thrown = none ∧
    (evaluate_queries toy 1 true [⟨none, [3, 1, 2]⟩, ⟨some "q7", [5]⟩] (some "thresholds")
        "block_simdbp" "ranked_or" "lexicon" "PISA" "Q1" [⟨0, by decide⟩, ⟨1, by decide⟩]
        []).thrown = none ∧
    (evaluate_queries toy 2 false [⟨none, [3, 1, 2]⟩, ⟨some "q7", [5]⟩] none "" "wand" "docs"
        "R0" "Q0" [⟨1, by decide⟩, ⟨0, by decide⟩] []).output
      = (evaluate_queries toy 1 true [⟨none, [3, 1, 2]⟩, ⟨some "q7", [5]⟩] (some "thresholds")
        "block_simdbp" "ranked_or" "lexicon" "PISA" "Q1" [⟨0, by decide⟩, ⟨1, by decide⟩]
        []).output :=
  ⟨by decide, by decide,
    (output_depends_on_ids_and_records toy 2 false toy 1 true
      [⟨none, [3, 1, 2]⟩, ⟨some "q7", [5]⟩] [⟨none, [3, 1, 2]⟩, ⟨some "q7", [5]⟩]
      none (some "thresholds") "" "block_simdbp" "wand" "ranked_or" "docs" "lexicon" "R0" "PISA"
      "Q0" "Q1" [⟨1, by decide⟩, ⟨0, by decide⟩] [⟨0, by decide⟩, ⟨1, by decide⟩] [] []).2.2
      (by decide) (by decide) (by decide) (by intro key; rfl)⟩

end pisa
